import Mathlib

/-!
Shallow embedding of the Robin Hood hash map from `src/hashmap.rs` and
`src/map_entry.rs` (crate `fxhashmap`), together with theorems settling the
frozen claims about its specification.

Modelling conventions:
* Keys and values are `Nat`; the hash capability (`H : BuildHasher`, used only
  through `hash_key`, which deterministically maps a key to a `usize`) is a
  parameter `h : Nat → Nat`.  `idHash` is one admissible hash function.
* `usize` is `Nat` with wrap-around (`% 2 ^ 64`) made explicit exactly where the
  source can overflow or underflow (`num_items += 1`, `num_items -= 1`).
* Code paths that panic in Rust (`hash % len` with `len = 0`, `Vec::get(j).unwrap()`
  out of bounds, indexing `inner[i]` out of bounds) are modelled with
  `Except RtPanic`.
* The source's unbounded `loop`/`while` walks advance their index by at least one
  slot per iteration over a sequence whose length never changes during the walk,
  so they are embedded as structural recursion on a fuel argument that the
  wrappers instantiate with `length + 1`, which the walks can never exhaust.
-/

namespace RHM

/-- Payload of an occupied slot: `Entry` of `map_entry.rs` (key, value, stored
hash, probe sequence length). -/
structure Entry where
  key : Nat
  value : Nat
  hash : Nat
  psl : Nat
deriving DecidableEq, Repr

/-- A slot of the backing vector: `MapEntry` of `map_entry.rs`. -/
inductive MapEntry where
  | Occupied : Entry → MapEntry
  | VacantEntry : MapEntry
deriving DecidableEq, Repr

/-- Runtime panics that the Rust source can raise on the paths we model. -/
inductive RtPanic where
  | remDivZero
  | indexOOB
deriving DecidableEq, Repr

deriving instance DecidableEq for Except

/-- The map state: `RHMap` of `hashmap.rs` (the backing vector, `num_items`,
`max_psl`); the hasher builder is the external hash-function parameter. -/
structure RHMap where
  inner : List MapEntry
  num_items : Nat
  max_psl : Nat
deriving DecidableEq, Repr

/-- Width of `usize` on a 64-bit target. -/
def USIZE : Nat := 2 ^ 64

/-- The source's `self.num_items += 1` on `usize` (wrapping semantics). -/
def usizeAdd1 (n : Nat) : Nat := (n + 1) % USIZE

/-- The source's `self.num_items -= 1` on `usize` (wrapping semantics): at 0 it
wraps around to `2 ^ 64 - 1`. -/
def usizeSub1 (n : Nat) : Nat := (n + (USIZE - 1)) % USIZE

/-- One admissible deterministic hash function for the `HashProvider`
capability. -/
def idHash : Nat → Nat := fun n => n

/-- `RHMap::new`: empty backing vector, `num_items = 0`, `max_psl = 0`. -/
def new : RHMap := ⟨[], 0, 0⟩

/-- `RHMap::with_capacity` (and `with_capacity_and_hasher`): `n` vacant slots. -/
def with_capacity (n : Nat) : RHMap :=
  ⟨List.replicate n MapEntry.VacantEntry, 0, 0⟩

/-- The `loop` of `RHMap::insert_entry` (hashmap.rs lines 147-179), walking from
index `i` with candidate `e`, threading `max_psl`.  Returns the new vector, the
new `max_psl`, and whether the equal-key update path ran (which skips
`num_items += 1`).  The source's swap branch (`mem::swap` then `continue`)
re-enters the loop at the same index where the key test and the psl test now
both fail, so its net effect — merged here into one step — is: swap, advance,
increment the displaced entry's psl, update `max_psl`. -/
def insertLoop : Nat → List MapEntry → Entry → Nat → Nat → List MapEntry × Nat × Bool
  | 0, inner, e, _, maxPsl => (inner ++ [MapEntry.Occupied e], maxPsl, false)
  | fuel + 1, inner, e, i, maxPsl =>
    match inner[i]? with
    | none => (inner ++ [MapEntry.Occupied e], maxPsl, false)
    | some (MapEntry.Occupied occ) =>
      if occ.key = e.key then
        (inner.set i (MapEntry.Occupied e), maxPsl, true)
      else if occ.psl < e.psl then
        insertLoop fuel (inner.set i (MapEntry.Occupied e))
          { occ with psl := occ.psl + 1 } (i + 1) (max maxPsl (occ.psl + 1))
      else
        insertLoop fuel inner
          { e with psl := e.psl + 1 } (i + 1) (max maxPsl (e.psl + 1))
    | some MapEntry.VacantEntry => (inner.set i (MapEntry.Occupied e), maxPsl, false)

/-- `RHMap::insert_entry` (hashmap.rs lines 143-182).  The home slot is
`entry.hash % inner.len()`; every caller in the source guarantees a non-empty
vector here (`insert` resizes first, `resize` builds a vector of length at
least 4). -/
def insert_entry (m : RHMap) (e : Entry) : RHMap :=
  let slot := e.hash % m.inner.length
  match insertLoop (m.inner.length + 1) m.inner e slot m.max_psl with
  | (inner1, maxPsl1, true) => { m with inner := inner1, max_psl := maxPsl1 }
  | (inner1, maxPsl1, false) =>
    { inner := inner1, num_items := usizeAdd1 m.num_items, max_psl := maxPsl1 }

/-- `RHMap::resize` (hashmap.rs lines 272-295): target 4 when empty, else double;
fresh all-vacant map; re-insert each occupied entry in index order via
`insert_entry`, carrying the entry unchanged (stored hash and stored psl). -/
def resize (m : RHMap) : RHMap :=
  let target := if m.inner.length = 0 then 4 else 2 * m.inner.length
  m.inner.foldl
    (fun acc s =>
      match s with
      | MapEntry.Occupied e => insert_entry acc e
      | MapEntry.VacantEntry => acc)
    ⟨List.replicate target MapEntry.VacantEntry, 0, 0⟩

/-- `RHMap::insert` (hashmap.rs lines 74-83): resize when the vector is empty or
`num_items > 3 * len / 4`, then insert a fresh entry with psl 0. -/
def insert (h : Nat → Nat) (m : RHMap) (k v : Nat) : RHMap :=
  let m1 :=
    if m.inner.length = 0 ∨ 3 * m.inner.length / 4 < m.num_items then resize m
    else m
  insert_entry m1 ⟨k, v, h k, 0⟩

/-- The `while d < len` walk of `RHMap::get_entry` (hashmap.rs lines 210-232).
Note the source compares `entry.psl` and `max_psl` against the absolute index
`d` (which starts at the home slot), and contains a second, unreachable
`d > max_psl` test; both are reproduced verbatim. -/
def getLoop : Nat → List MapEntry → Nat → Nat → Nat → Option Entry
  | 0, _, _, _, _ => none
  | fuel + 1, inner, k, maxPsl, d =>
    match inner[d]? with
    | none => none
    | some (MapEntry.Occupied e) =>
      if e.key = k then some e
      else if e.psl < d ∨ maxPsl < d then none
      else if maxPsl < d then none
      else getLoop fuel inner k maxPsl (d + 1)
    | some MapEntry.VacantEntry => none

/-- `RHMap::get_entry` (hashmap.rs lines 205-235).  `hash % inner.len()` panics
in Rust when the vector is empty (remainder by zero). -/
def get_entry (h : Nat → Nat) (m : RHMap) (k : Nat) : Except RtPanic (Option Entry) :=
  if m.inner.length = 0 then Except.error RtPanic.remDivZero
  else Except.ok (getLoop (m.inner.length + 1) m.inner k m.max_psl (h k % m.inner.length))

/-- `RHMap::get` (hashmap.rs lines 194-200). -/
def get (h : Nat → Nat) (m : RHMap) (k : Nat) : Except RtPanic (Option Nat) :=
  (get_entry h m k).map (fun o => o.map Entry.value)

/-- `RHMap::contains_key` (hashmap.rs lines 252-259). -/
def contains_key (h : Nat → Nat) (m : RHMap) (k : Nat) : Except RtPanic Bool :=
  (get_entry h m k).map Option.isSome

/-- The run-end scan of `RHMap::remove` (hashmap.rs lines 107-122): from `j`,
stop at an occupied slot with psl 0 or at a vacant slot; `inner.get(j).unwrap()`
panics (`none` here) when `j` runs past the end of the vector. -/
def findRunEnd : Nat → List MapEntry → Nat → Option Nat
  | 0, _, _ => none
  | fuel + 1, inner, j =>
    match inner[j]? with
    | none => none
    | some (MapEntry.Occupied e) =>
      if e.psl = 0 then some j else findRunEnd fuel inner (j + 1)
    | some MapEntry.VacantEntry => some j

/-- The `unsafe` block of `RHMap::remove` (hashmap.rs lines 126-134):
`ptr::copy` moves the `j - i - 1` slots at `i+1 .. j-1` down to `i .. j-2`, then
`ptr::write` puts `VacantEntry` at `j - 1`; meaningful for `i < j ≤ length`. -/
def backshift (inner : List MapEntry) (i j : Nat) : List MapEntry :=
  inner.take i ++ (inner.drop (i + 1)).take (j - i - 1)
    ++ [MapEntry.VacantEntry] ++ inner.drop j

/-- `RHMap::remove` (hashmap.rs lines 86-141).  The result's `Bool` is `true`
for `Ok(())` and `false` for `Err("Entry not found")` (state unchanged).  The
deleted entry's index is recomputed as `hash % len + psl` from the stored
fields; when `j = i + 1 ≥ len` the source writes `inner[i] = VacantEntry`
directly (a panicking index when `i ≥ len`). -/
def remove (h : Nat → Nat) (m : RHMap) (k : Nat) : Except RtPanic (RHMap × Bool) :=
  match get_entry h m k with
  | Except.error p => Except.error p
  | Except.ok none => Except.ok (m, false)
  | Except.ok (some e) =>
    let len := m.inner.length
    let slot := e.hash % len
    let i := slot + e.psl
    if len ≤ i + 1 then
      if i < len then
        Except.ok ({ m with inner := m.inner.set i MapEntry.VacantEntry,
                            num_items := usizeSub1 m.num_items }, true)
      else Except.error RtPanic.indexOOB
    else
      match findRunEnd (len + 1) m.inner (i + 1) with
      | none => Except.error RtPanic.indexOOB
      | some j =>
        Except.ok ({ m with inner := backshift m.inner i j,
                            num_items := usizeSub1 m.num_items }, true)

/-- `RHMap::clear` (hashmap.rs lines 238-249): refill the vector with
`old_capacity` vacant slots and zero `num_items`; `max_psl` is not touched. -/
def clear (m : RHMap) : RHMap :=
  { inner := List.replicate m.inner.length MapEntry.VacantEntry,
    num_items := 0, max_psl := m.max_psl }

/-- `RHMap::len` (hashmap.rs lines 262-264). -/
def len (m : RHMap) : Nat := m.num_items

/-- `RHMap::capacity` (hashmap.rs lines 267-269). -/
def capacity (m : RHMap) : Nat := m.inner.length

/-- The lookup walk as the specification states it, for comparison with
`getLoop`.  Modelled from the spec: the walk from `home` stops not-found when
the occupied slot's psl is less than the number of steps taken so far
(`d - home`) or the number of steps exceeds `max_psl`; otherwise it continues. -/
def getLoopSpec : Nat → List MapEntry → Nat → Nat → Nat → Nat → Option Entry
  | 0, _, _, _, _, _ => none
  | fuel + 1, inner, k, maxPsl, home, d =>
    match inner[d]? with
    | none => none
    | some (MapEntry.Occupied e) =>
      if e.key = k then some e
      else if e.psl < d - home ∨ maxPsl < d - home then none
      else getLoopSpec fuel inner k maxPsl home (d + 1)
    | some MapEntry.VacantEntry => none

/-- Reachable two-entry table, from `new()` with the identity hash: insert
(2, 10) (forcing the first resize to capacity 4, entry at its home slot 2),
then insert (6, 20) (home slot 2, displaced to slot 3 with psl 1). -/
def mapC1 : RHMap := insert idHash (insert idHash new 2 10) 6 20

/-- Reachable three-entry table: `with_capacity(8)`, identity hash, insert
(1, 11), (9, 19), (17, 27); all three keys have home slot 1, occupying slots
1, 2, 3 with psl 0, 1, 2. -/
def mapC4pre : RHMap :=
  insert idHash (insert idHash (insert idHash (with_capacity 8) 1 11) 9 19) 17 27

/-- The state after `remove(&1)` on `mapC4pre`: keys 9 and 17 shifted to slots
1 and 2 with their psl fields unchanged (1 and 2). -/
def mapC2 : RHMap :=
  match remove idHash mapC4pre 1 with
  | Except.ok (m1, _) => m1
  | Except.error _ => mapC4pre

/-- The state after the subsequent `remove(&9)` on `mapC2`. -/
def mapC2post : RHMap :=
  match remove idHash mapC2 9 with
  | Except.ok (m1, _) => m1
  | Except.error _ => mapC2

/-- Reachable table whose final slot ends a psl > 0 run: `with_capacity(2)`,
identity hash, insert (0, 5) at slot 0 and (2, 7) displaced to slot 1 (psl 1). -/
def mapC5 : RHMap := insert idHash (insert idHash (with_capacity 2) 0 5) 2 7

/-- Reachable table built from `new()` with the identity hash by inserting
(2, 10), (6, 20), (1, 30), (0, 40), (5, 50): the fifth insert finds
`num_items = 4 > 3 = 3 * 4 / 4` and resizes the full capacity-4 table to
capacity 8, transferring the entry with key 6 (stored psl 1). -/
def mapC6 : RHMap :=
  insert idHash
    (insert idHash (insert idHash (insert idHash (insert idHash new 2 10) 6 20) 1 30) 0 40)
    5 50

/-- Reachable two-entry table: `with_capacity(8)`, identity hash, insert
(1, 11) and (9, 19); both keys have home slot 1. -/
def mapC8 : RHMap := insert idHash (insert idHash (with_capacity 8) 1 11) 9 19

/-- After `remove(&1)`: key 9 shifted to slot 1 with stale psl 1, count 1. -/
def mapC8a : RHMap :=
  match remove idHash mapC8 1 with
  | Except.ok (m1, _) => m1
  | Except.error _ => mapC8

/-- After the first `remove(&9)`: the stale psl makes remove vacate the (already
vacant) slot 2, so key 9 stays in slot 1 while count drops to 0. -/
def mapC8b : RHMap :=
  match remove idHash mapC8a 9 with
  | Except.ok (m1, _) => m1
  | Except.error _ => mapC8a

/-- After the second `remove(&9)`: `num_items -= 1` underflows from 0. -/
def mapC8c : RHMap :=
  match remove idHash mapC8b 9 with
  | Except.ok (m1, _) => m1
  | Except.error _ => mapC8b

/-- C1: the round-trip claim fails on the code.  In `mapC1` the key 6 was
inserted most recently with value 20, was never removed, and sits in slot 3,
yet `get` reports not-found: the walk starts at home slot 2, finds key 2 with
psl 0 there, and the source's early-termination test `entry.psl < d` compares
the psl against the absolute index `d = 2` instead of the 0 steps walked. -/
theorem c1_roundtrip_fails_after_insert :
    get idHash mapC1 6 = Except.ok none ∧
    mapC1.inner[3]? = some (MapEntry.Occupied ⟨6, 20, 6, 1⟩) ∧
    mapC1.num_items = 2 := by decide

/-- C3: the lookup early-termination rule in the code diverges from the claimed
rule.  On `mapC1`, seeking key 6 from home slot 2: the claimed rule (psl
compared with steps taken, `d - home`) continues past slot 2 and finds the
entry at slot 3, while the code's walk (psl compared with the absolute index
`d`) stops not-found at slot 2, contradicting its own comment. -/
theorem c3_lookup_termination_uses_absolute_index :
    get_entry idHash mapC1 6 = Except.ok none ∧
    getLoop 5 mapC1.inner 6 mapC1.max_psl 2 = none ∧
    getLoopSpec 5 mapC1.inner 6 mapC1.max_psl 2 2 = some ⟨6, 20, 6, 1⟩ := by decide

/-- C4: the backward shift does not decrement the moved entries' psl fields.
Removing key 1 (slot 1) from `mapC4pre` shifts the entries of slots 2 and 3
(run end j = 4) into slots 1 and 2 and vacates slot 3, but the moved entries
keep psl 1 and psl 2 although their distances from home slot 1 are now 0 and 1:
the `ptr::copy` moves the slots verbatim and no code path decrements psl. -/
theorem c4_backshift_keeps_psl :
    remove idHash mapC4pre 1 =
      Except.ok
        ({ inner :=
            [MapEntry.VacantEntry,
             MapEntry.Occupied ⟨9, 19, 9, 1⟩,
             MapEntry.Occupied ⟨17, 27, 17, 2⟩,
             MapEntry.VacantEntry, MapEntry.VacantEntry, MapEntry.VacantEntry,
             MapEntry.VacantEntry, MapEntry.VacantEntry],
           num_items := 2, max_psl := 2 }, true) := by decide

/-- C2: deletion correctness fails on a reachable state.  In `mapC2` (reached by
three inserts and one successful remove) key 17 is retrievable with value 27;
`remove(&9)` then succeeds, but because key 9's stored psl is stale the code
recomputes its index as slot 2 and vacates the slot holding key 17 instead:
afterwards `contains_key(&9)` is still true and key 17 is gone. -/
theorem c2_remove_deletes_wrong_slot :
    get idHash mapC2 17 = Except.ok (some 27) ∧
    remove idHash mapC2 9 = Except.ok (mapC2post, true) ∧
    contains_key idHash mapC2post 9 = Except.ok true ∧
    get idHash mapC2post 17 = Except.ok none := by decide

/-- C5: the run-end scan faults when the psl > 0 run reaches the last slot.
In `mapC5` (capacity 2, slot 0 holds key 0 with psl 0, slot 1 holds key 2 with
psl 1), `remove(&0)` scans from j = 1, sees psl 1 > 0, advances to j = 2 and
calls `self.inner.get(2).unwrap()` past the end of the vector — a panic, not
normal termination. -/
theorem c5_remove_scan_runs_past_end :
    remove idHash mapC5 0 = Except.error RtPanic.indexOOB ∧
    mapC5.inner =
      [MapEntry.Occupied ⟨0, 5, 0, 0⟩, MapEntry.Occupied ⟨2, 7, 2, 1⟩] := by decide

/-- C6: resize does not reset the transferred entries' PSL to 0.  The fifth
insert into `mapC6`'s chain doubles capacity 4 to 8; the entry with key 6 is
re-inserted with its stored hash 6 and lands in its new home slot 6, yet keeps
its stale psl 1 (its distance from home is 0), and the rebuilt `max_psl` is 0,
undercounting that psl. -/
theorem c6_resize_keeps_stale_psl :
    mapC6.inner.length = 8 ∧
    mapC6.inner[6]? = some (MapEntry.Occupied ⟨6, 20, 6, 1⟩) ∧
    mapC6.max_psl = 0 := by decide

/-- C7 counterexample: the claim that `clear()` leaves `max_psl = 0` is false:
`mapC1` has `max_psl = 1` and `clear` does not touch the field. -/
theorem c7_clear_claim_counterexample : ¬ (clear mapC1).max_psl = 0 := by decide

/-- C7 amended: after `clear()` every slot of the sequence is Vacant, the
capacity (sequence length) is unchanged, the count is 0, and `max_psl` is
unchanged (retaining its prior value rather than being reset to 0). -/
theorem c7_clear_postcondition (m : RHMap) :
    (clear m).inner.length = m.inner.length ∧
    (∀ s ∈ (clear m).inner, s = MapEntry.VacantEntry) ∧
    (clear m).num_items = 0 ∧
    (clear m).max_psl = m.max_psl := by
  refine ⟨?_, ?_, rfl, rfl⟩
  · simp [clear]
  · intro s hs
    exact List.eq_of_mem_replicate hs

/-- C7 witness: the amended postcondition evaluated at the concrete table
`mapC1`. -/
theorem c7_clear_postcondition_witness :
    (clear mapC1).inner.length = mapC1.inner.length ∧
    (∀ s ∈ (clear mapC1).inner, s = MapEntry.VacantEntry) ∧
    (clear mapC1).num_items = 0 ∧
    (clear mapC1).max_psl = mapC1.max_psl :=
  c7_clear_postcondition mapC1

/-- C8: `count <= capacity` does not hold after every public operation.  From
`mapC8b` (reached by two inserts and two successful removes; key 9 still
occupies slot 1 with stale psl 1 while `num_items` is already 0), a further
`remove(&9)` succeeds again and `num_items -= 1` underflows: the resulting
count is `2^64 - 1`, far above the capacity 8. -/
theorem c8_count_exceeds_capacity :
    mapC8b.num_items = 0 ∧
    remove idHash mapC8b 9 = Except.ok (mapC8c, true) ∧
    len mapC8c = 2 ^ 64 - 1 ∧
    capacity mapC8c = 8 := by decide

/-- C9: `remove` does not error exactly on absent keys.  On `mapC1` the key 6
occupies slot 3, yet `remove(&6)` returns the `Err("Entry not found")` path
(modelled as the `false` flag) because the lookup's early termination misses
the entry; the state is returned unchanged. -/
theorem c9_remove_errors_on_present_key :
    remove idHash mapC1 6 = Except.ok (mapC1, false) ∧
    mapC1.inner[3]? = some (MapEntry.Occupied ⟨6, 20, 6, 1⟩) := by decide

/-- C10: querying a capacity-0 table is not well-defined.  On the table produced
by `new()`, `get`, `contains_key` and `remove` all reach
`hash % self.inner.len()` with length 0, which panics in Rust (remainder by
zero) instead of reporting not-found. -/
theorem c10_empty_capacity_queries_fault :
    get idHash new 5 = Except.error RtPanic.remDivZero ∧
    contains_key idHash new 5 = Except.error RtPanic.remDivZero ∧
    remove idHash new 5 = Except.error RtPanic.remDivZero := by decide

end RHM
